import Mathlib

/-!
Shallow embedding of the RTMP-to-RTSP stream supervision core of this
repository: the `StreamConverter` process supervisor
(`app/converter/stream_converter.py`) and the `StreamManager` registry
(`app/converter/manager/stream_manager.py`), together with the persistent
store interface (`app/db.py`).

Modelling conventions:
- Wall-clock timestamps (Python `time.time()` floats) are rationals `ℚ`.
- A child-process handle (`subprocess.Popen`) is a record carrying the
  result of `poll()`: `none` while the process runs, `some code` once it
  has exited.
- The spawn side effects of one iteration of the retry loop in `start`
  (opening the log file, `subprocess.Popen`, the 2-second grace wait and
  the subsequent `poll`) are abstracted into a `SpawnOutcome` supplied per
  attempt by an oracle `spawn : Nat → SpawnOutcome`; the Python
  `except FileNotFoundError` / `except PermissionError` / `except OSError`
  / `except Exception` arms correspond to the listed constructors.
- The background log-reader thread `_log_ffmpeg_output` is modelled by its
  loop body acting on the supervisor state: one step consumes the line
  read from stdout and the line read from stderr (the empty string when
  `readline` produced nothing) and the times at which the two reads occur.
- The filesystem seen by `get_stream_logs` is an oracle
  `String → Except String String`: `.ok contents` when reading the path
  succeeds, `.error msg` when it raises.
-/

/-- `matchesAt needle hay` is true when `needle` is an initial segment of
`hay` (character lists). -/
def matchesAt : List Char → List Char → Bool
  | [], _ => true
  | _ :: _, [] => false
  | a :: as, b :: bs => a == b && matchesAt as bs

/-- `hasSubList needle hay` is true when `needle` occurs contiguously
somewhere in `hay`. -/
def hasSubList (needle : List Char) : List Char → Bool
  | [] => needle.isEmpty
  | b :: bs => matchesAt needle (b :: bs) || hasSubList needle bs

/-- Python's substring test `needle in hay` on strings. -/
def strContains (hay needle : String) : Bool :=
  hasSubList needle.data hay.data

/-- ASCII lowercasing of one character, as Python `str.lower` acts on the
ASCII range (the only range FFmpeg diagnostics use). -/
def charToLower (c : Char) : Char :=
  if 65 ≤ c.toNat && c.toNat ≤ 90 then Char.ofNat (c.toNat + 32) else c

/-- Python `str.lower` (ASCII range). -/
def strLower (s : String) : String :=
  ⟨s.data.map charToLower⟩

/-- Python `str.strip()`: drop leading and trailing whitespace. -/
def strTrim (s : String) : String :=
  ⟨((s.data.dropWhile Char.isWhitespace).reverse.dropWhile
      Char.isWhitespace).reverse⟩

/-- The dictionary returned by `get_health_status`: a boolean `status` and
a human-readable `reason`. -/
structure HealthStatus where
  status : Bool
  reason : String
deriving DecidableEq, Repr

/-- A child-process handle; `poll = none` means the process is still
running, `poll = some code` that it exited with `code`. -/
structure Proc where
  poll : Option Int
deriving DecidableEq, Repr

/-- The per-stream supervision state held by a `StreamConverter` object:
its constructor arguments plus the mutable fields written by `start`,
`_log_ffmpeg_output`, `get_health_status` and `clear_error`. -/
structure StreamConverter where
  rtmp_url : String
  rtsp_port : Nat
  stream_name : String
  host : String
  process : Option Proc
  log_buffer : String
  last_error : String
  last_output_time : ℚ
  last_health_check_time : ℚ
  cached_health_status : Option HealthStatus
  log_file_path : String
deriving DecidableEq, Repr

/-- `StreamConverter.__init__`: no process yet, empty buffer, empty
`last_error`, both timestamps zero, no cached verdict, and the log-file
path derived from the stream name. -/
def StreamConverter.init (rtmp_url : String) (rtsp_port : Nat)
    (stream_name : String) (host : String) : StreamConverter :=
  { rtmp_url := rtmp_url
    rtsp_port := rtsp_port
    stream_name := stream_name
    host := host
    process := none
    log_buffer := ""
    last_error := ""
    last_output_time := 0
    last_health_check_time := 0
    cached_health_status := none
    log_file_path := "app/static/logs/" ++ stream_name ++ ".log" }

/-- The Python idiom `self.process and self.process.poll() is None`: a
handle exists and the child has not exited. -/
def StreamConverter.processLive (s : StreamConverter) : Bool :=
  match s.process with
  | none => false
  | some p => p.poll.isNone

/-- One iteration of the loop body of `_log_ffmpeg_output`: `stdoutLine`
and `stderrLine` are what `readline()` returned on each channel (the
empty string when there was no line), `tOut` and `tErr` the wall-clock
times of the two `time.time()` calls.  A non-empty stdout line is logged
and refreshes `last_output_time`; a non-empty stderr line is logged, is
scanned (stripped, lowercased) for the keywords `error` / `fatal` to
update `last_error`, and also refreshes `last_output_time`. -/
def StreamConverter.log_ffmpeg_output_step (s : StreamConverter)
    (stdoutLine stderrLine : String) (tOut tErr : ℚ) : StreamConverter :=
  let s1 :=
    if stdoutLine ≠ "" then
      { s with
        log_buffer := s.log_buffer ++ "FFmpeg stdout: " ++ strTrim stdoutLine ++ "\n"
        last_output_time := tOut }
    else s
  if stderrLine ≠ "" then
    let stripped := strTrim stderrLine
    let error_line := strLower stripped
    let s2 := { s1 with
      log_buffer := s1.log_buffer ++ "FFmpeg stderr: " ++ stripped ++ "\n" }
    let s3 :=
      if strContains error_line "error" || strContains error_line "fatal" then
        { s2 with last_error := stripped }
      else s2
    { s3 with last_output_time := tErr }
  else s1

/-- Outcome of one spawn attempt inside `start`'s retry loop. -/
inductive SpawnOutcome where
  /-- `Popen` succeeded and the child is still alive after the grace wait. -/
  | alive
  /-- `Popen` succeeded but the child exited during the grace wait. -/
  | exitedEarly (code : Int)
  /-- `FileNotFoundError`: the executable is missing. -/
  | fatalNotFound
  /-- `PermissionError`. -/
  | fatalPermission
  /-- `OSError` other than the two above. -/
  | transientOS
  /-- any other `Exception`. -/
  | transientOther
deriving DecidableEq, Repr

/-- Outcomes `start` aborts on immediately (its `return False` arms). -/
def SpawnOutcome.isFatal : SpawnOutcome → Bool
  | .fatalNotFound => true
  | .fatalPermission => true
  | _ => false

/-- Outcomes `start` treats as a failed attempt to be retried. -/
def SpawnOutcome.isRetriableFailure : SpawnOutcome → Bool
  | .exitedEarly _ => true
  | .transientOS => true
  | .transientOther => true
  | _ => false

/-- The retry loop `for attempt in range(max_retries)` of `start`.
`startAttempts spawn n done` runs up to `n` more attempts, `done` attempts
having already been performed; it returns the boolean result of `start`
together with the total number of spawn attempts performed. -/
def startAttempts (spawn : Nat → SpawnOutcome) : Nat → Nat → Bool × Nat
  | 0, done => (false, done)
  | n + 1, done =>
    match spawn done with
    | .alive => (true, done + 1)
    | .fatalNotFound => (false, done + 1)
    | .fatalPermission => (false, done + 1)
    | .exitedEarly _ => startAttempts spawn n (done + 1)
    | .transientOS => startAttempts spawn n (done + 1)
    | .transientOther => startAttempts spawn n (done + 1)

/-- `StreamConverter.start`: returns `True` at once, with no spawn
attempt, when a live process already exists; otherwise runs the retry
loop.  The result pairs the returned boolean with the number of spawn
attempts performed. -/
def StreamConverter.start (s : StreamConverter) (spawn : Nat → SpawnOutcome)
    (max_retries : Nat) : Bool × Nat :=
  if s.processLive then (true, 0)
  else startAttempts spawn max_retries 0

/-- `StreamConverter.get_health_status` at wall-clock time `current_time`:
returns the cached verdict when it exists and is younger than 5 seconds;
otherwise recomputes (dead process, then recorded error, then output
staleness beyond 30 seconds — the staleness test is guarded by
`last_output_time > 0`), caches the verdict and stamps the check time.
Returns the verdict together with the updated state. -/
def StreamConverter.get_health_status (s : StreamConverter)
    (current_time : ℚ) : HealthStatus × StreamConverter :=
  if current_time - s.last_health_check_time < 5 ∧ s.cached_health_status.isSome then
    (s.cached_health_status.getD ⟨false, ""⟩, s)
  else
    let status : HealthStatus :=
      if ¬ s.processLive then
        ⟨false, "FFmpeg process is not running"⟩
      else if s.last_error ≠ "" then
        ⟨false, "FFmpeg error: " ++ s.last_error⟩
      else if 0 < s.last_output_time ∧ 30 < current_time - s.last_output_time then
        ⟨false, "No output from FFmpeg for more than 30 seconds"⟩
      else
        ⟨true, "Stream is running normally"⟩
    (status,
      { s with
        cached_health_status := some status
        last_health_check_time := current_time })

/-- `StreamConverter.clear_error`: blank out `last_error` and drop the
cached health verdict. -/
def StreamConverter.clear_error (s : StreamConverter) : StreamConverter :=
  { s with last_error := "", cached_health_status := none }

/-- The persistent store (`app/db.py`): the `streams` table, rows being
`(stream_name, rtmp_url, rtsp_port)` with a unique constraint on
`stream_name`. -/
structure StreamDB where
  records : List (String × String × Nat)
deriving DecidableEq, Repr

/-- `db.save_stream`: inserting a row whose `stream_name` already exists
raises `IntegrityError`, which is caught, rolled back and reported as
`False`; otherwise the row is appended and `True` returned. -/
def save_stream (db : StreamDB) (stream_name rtmp_url : String)
    (rtsp_port : Nat) : Bool × StreamDB :=
  if db.records.any (fun r => r.1 == stream_name) then
    (false, db)
  else
    (true, ⟨db.records ++ [(stream_name, rtmp_url, rtsp_port)]⟩)

/-- The `StreamManager` registry: the insertion-ordered dictionary
`streams` mapping stream names to converters. -/
structure StreamManager where
  streams : List (String × StreamConverter)
deriving DecidableEq, Repr

/-- `StreamManager.add_stream`: reject a duplicate name; otherwise build a
fresh converter and call `start()` (default `max_retries = 3`); on success
put the converter in the map and call `save_stream` — whose boolean result
the Python code discards — and on failure leave everything untouched. -/
def StreamManager.add_stream (m : StreamManager) (db : StreamDB)
    (spawn : Nat → SpawnOutcome) (rtmp_url : String) (rtsp_port : Nat)
    (stream_name : String) (host : String) : Bool × StreamManager × StreamDB :=
  if (m.streams.lookup stream_name).isSome then
    (false, m, db)
  else
    let converter := StreamConverter.init rtmp_url rtsp_port stream_name host
    if (converter.start spawn 3).1 then
      (true, ⟨m.streams ++ [(stream_name, converter)]⟩,
        (save_stream db stream_name rtmp_url rtsp_port).2)
    else
      (false, m, db)

/-- `StreamManager.stop_all_streams`: call `stop()` on every converter,
remembering whether any failed (`stopOk` abstracts each converter's
`stop()` result, which in Python depends on exceptions raised while
terminating the child), then unconditionally clear the map. -/
def StreamManager.stop_all_streams (m : StreamManager)
    (stopOk : String → StreamConverter → Bool) : Bool × StreamManager :=
  let success := m.streams.foldl
    (fun acc p => if stopOk p.1 p.2 then acc else false) true
  (success, ⟨[]⟩)

/-- `StreamManager.get_stream_logs`: `None` for an unknown name; otherwise
take the in-memory buffer, and only when it is empty read the log file
through the filesystem oracle `fs`, turning a read failure into an
`"Error reading logs: ..."` string. -/
def StreamManager.get_stream_logs (m : StreamManager)
    (fs : String → Except String String) (stream_name : String) : Option String :=
  match m.streams.lookup stream_name with
  | none => none
  | some converter =>
    let logs := converter.log_buffer
    if logs = "" then
      match fs converter.log_file_path with
      | .ok contents => some contents
      | .error e => some ("Error reading logs: " ++ e)
    else
      some logs

/-- The health verdict exactly as claim C6 words it: dead process, then
recorded error, then "last activity timestamp older than the staleness
threshold (30s)" — with no guard requiring that any output was ever
observed. -/
def claimC6Verdict (s : StreamConverter) (current_time : ℚ) : HealthStatus :=
  if ¬ s.processLive then
    ⟨false, "FFmpeg process is not running"⟩
  else if s.last_error ≠ "" then
    ⟨false, "FFmpeg error: " ++ s.last_error⟩
  else if 30 < current_time - s.last_output_time then
    ⟨false, "No output from FFmpeg for more than 30 seconds"⟩
  else
    ⟨true, "Stream is running normally"⟩

/-- The health verdict as the amended claim C6 words it: as `claimC6Verdict`
but the staleness test applies only once some output has been observed
(`last_output_time > 0`). -/
def amendedC6Verdict (s : StreamConverter) (current_time : ℚ) : HealthStatus :=
  if ¬ s.processLive then
    ⟨false, "FFmpeg process is not running"⟩
  else if s.last_error ≠ "" then
    ⟨false, "FFmpeg error: " ++ s.last_error⟩
  else if 0 < s.last_output_time ∧ 30 < current_time - s.last_output_time then
    ⟨false, "No output from FFmpeg for more than 30 seconds"⟩
  else
    ⟨true, "Stream is running normally"⟩

theorem stopFold_eq_all (stopOk : String → StreamConverter → Bool) :
    ∀ (l : List (String × StreamConverter)) (acc : Bool),
      l.foldl (fun acc p => if stopOk p.1 p.2 then acc else false) acc =
        (acc && l.all fun p => stopOk p.1 p.2) := by
  intro l
  induction l with
  | nil => intro acc; simp
  | cons p t ih =>
    intro acc
    simp only [List.foldl_cons, List.all_cons]
    rw [ih]
    cases hs : stopOk p.1 p.2 <;> simp [hs]

/-- C7: `clear_error()` blanks the recorded error and drops the cached
health verdict, and leaves every other component of the supervision state
— the process handle, the activity timestamp, the check timestamp, the
log buffer and path, and the constructor configuration — unchanged. -/
theorem c7_clear_error_frame (s : StreamConverter) :
    s.clear_error.last_error = "" ∧
    s.clear_error.cached_health_status = none ∧
    s.clear_error.process = s.process ∧
    s.clear_error.last_output_time = s.last_output_time ∧
    s.clear_error.last_health_check_time = s.last_health_check_time ∧
    s.clear_error.log_buffer = s.log_buffer ∧
    s.clear_error.log_file_path = s.log_file_path ∧
    s.clear_error.rtmp_url = s.rtmp_url ∧
    s.clear_error.rtsp_port = s.rtsp_port ∧
    s.clear_error.stream_name = s.stream_name ∧
    s.clear_error.host = s.host :=
  ⟨rfl, rfl, rfl, rfl, rfl, rfl, rfl, rfl, rfl, rfl, rfl⟩

/-- C8: after `stop_all_streams` the registry map is empty regardless of
individual `stop()` failures, and the returned boolean is `true` exactly
when every individual `stop()` succeeded. -/
theorem c8_stop_all_clears (m : StreamManager)
    (stopOk : String → StreamConverter → Bool) :
    (m.stop_all_streams stopOk).2.streams = [] ∧
    ((m.stop_all_streams stopOk).1 = true ↔
      ∀ p ∈ m.streams, stopOk p.1 p.2 = true) := by
  unfold StreamManager.stop_all_streams
  refine ⟨rfl, ?_⟩
  simp only [stopFold_eq_all, Bool.true_and, List.all_eq_true]

/-- C9: calling `start` on a supervisor whose process handle is still
live returns success immediately and performs zero spawn attempts. -/
theorem c9_start_idempotent (s : StreamConverter)
    (spawn : Nat → SpawnOutcome) (max_retries : Nat)
    (h : s.processLive = true) :
    s.start spawn max_retries = (true, 0) := by
  unfold StreamConverter.start
  simp [h]

def convC9 : StreamConverter :=
  { StreamConverter.init "rtmp://cam" 8554 "cam" "localhost" with
    process := some ⟨none⟩ }

theorem c9_witness :
    convC9.start (fun _ => SpawnOutcome.transientOS) 3 = (true, 0) :=
  c9_start_idempotent convC9 (fun _ => SpawnOutcome.transientOS) 3 (by decide)

theorem startAttempts_count_le (spawn : Nat → SpawnOutcome) :
    ∀ (n done : Nat), (startAttempts spawn n done).2 ≤ done + n := by
  intro n
  induction n with
  | zero =>
    intro done
    simp [startAttempts]
  | succ n ih =>
    intro done
    unfold startAttempts
    cases hs : spawn done <;> simp only
    case alive => simp
    case fatalNotFound => simp
    case fatalPermission => simp
    case exitedEarly code => exact le_trans (ih (done + 1)) (by omega)
    case transientOS => exact le_trans (ih (done + 1)) (by omega)
    case transientOther => exact le_trans (ih (done + 1)) (by omega)

theorem startAttempts_all_retriable (spawn : Nat → SpawnOutcome)
    (h : ∀ k, (spawn k).isRetriableFailure = true) :
    ∀ (n done : Nat), startAttempts spawn n done = (false, done + n) := by
  intro n
  induction n with
  | zero =>
    intro done
    simp [startAttempts]
  | succ n ih =>
    intro done
    have hk := h done
    have hstep : done + 1 + n = done + (n + 1) := by omega
    unfold startAttempts
    cases hs : spawn done <;>
      simp only [hs, SpawnOutcome.isRetriableFailure] at hk ⊢
    case alive => cases hk
    case fatalNotFound => cases hk
    case fatalPermission => cases hk
    case exitedEarly code => rw [ih (done + 1), hstep]
    case transientOS => rw [ih (done + 1), hstep]
    case transientOther => rw [ih (done + 1), hstep]

theorem startAttempts_fatal (spawn : Nat → SpawnOutcome) :
    ∀ (j n done : Nat), j < n →
      (∀ k, k < j → (spawn (done + k)).isRetriableFailure = true) →
      (spawn (done + j)).isFatal = true →
      startAttempts spawn n done = (false, done + j + 1) := by
  intro j
  induction j with
  | zero =>
    intro n done hn hpre hfat
    obtain ⟨n', rfl⟩ : ∃ n', n = n' + 1 := ⟨n - 1, by omega⟩
    simp only [Nat.add_zero] at hfat
    unfold startAttempts
    cases hs : spawn done <;>
      simp only [hs, SpawnOutcome.isFatal] at hfat ⊢
    case alive => cases hfat
    case exitedEarly code => cases hfat
    case transientOS => cases hfat
    case transientOther => cases hfat
  | succ j ih =>
    intro n done hn hpre hfat
    obtain ⟨n', rfl⟩ : ∃ n', n = n' + 1 := ⟨n - 1, by omega⟩
    have h0 : (spawn (done + 0)).isRetriableFailure = true := hpre 0 (by omega)
    simp only [Nat.add_zero] at h0
    have hpre' : ∀ k, k < j → (spawn (done + 1 + k)).isRetriableFailure = true := by
      intro k hk
      have := hpre (k + 1) (by omega)
      have harr : done + (k + 1) = done + 1 + k := by omega
      rwa [harr] at this
    have hfat' : (spawn (done + 1 + j)).isFatal = true := by
      have harr : done + (j + 1) = done + 1 + j := by omega
      rwa [harr] at hfat
    have hres : done + 1 + j + 1 = done + (j + 1) + 1 := by omega
    unfold startAttempts
    cases hs : spawn done <;>
      simp only [hs, SpawnOutcome.isRetriableFailure] at h0 ⊢
    case alive => cases h0
    case fatalNotFound => cases h0
    case fatalPermission => cases h0
    case exitedEarly code => rw [ih n' (done + 1) (by omega) hpre' hfat', hres]
    case transientOS => rw [ih n' (done + 1) (by omega) hpre' hfat', hres]
    case transientOther => rw [ih n' (done + 1) (by omega) hpre' hfat', hres]

/-- C3: with `max_retries ≥ 1` and a spawn oracle that always fails with
a retriable (transient) error, `start` on a supervisor with no live
process returns failure after exactly `max_retries` spawn attempts; on
any input `start` performs at most `max_retries` spawn attempts; and
`add_stream` under such an oracle returns failure leaving the registry
map and the persistent store unchanged. -/
theorem c3_retry_exhaustion (max_retries : Nat) (_hmr : 1 ≤ max_retries)
    (spawn : Nat → SpawnOutcome)
    (htrans : ∀ k, (spawn k).isRetriableFailure = true) :
    (∀ s : StreamConverter, s.processLive = false →
      s.start spawn max_retries = (false, max_retries)) ∧
    (∀ (s : StreamConverter) (spawn2 : Nat → SpawnOutcome) (m : Nat),
      (s.start spawn2 m).2 ≤ m) ∧
    (∀ (mgr : StreamManager) (db : StreamDB) (rtmp_url : String)
      (rtsp_port : Nat) (stream_name host : String),
      mgr.add_stream db spawn rtmp_url rtsp_port stream_name host
        = (false, mgr, db)) := by
  have hfail : ∀ mr : Nat, startAttempts spawn mr 0 = (false, mr) := by
    intro mr
    simpa using startAttempts_all_retriable spawn htrans mr 0
  refine ⟨?_, ?_, ?_⟩
  · intro s hs
    unfold StreamConverter.start
    simp only [hs, Bool.false_eq_true, if_false]
    exact hfail max_retries
  · intro s spawn2 m
    unfold StreamConverter.start
    cases h : s.processLive
    · simpa using startAttempts_count_le spawn2 m 0
    · simp
  · intro mgr db rtmp_url rtsp_port stream_name host
    unfold StreamManager.add_stream
    cases h : (mgr.streams.lookup stream_name).isSome
    · have hstart :
          (StreamConverter.init rtmp_url rtsp_port stream_name host).start spawn 3
            = (false, 3) := by
        unfold StreamConverter.start
        have hl : (StreamConverter.init rtmp_url rtsp_port stream_name
            host).processLive = false := rfl
        simp only [hl, Bool.false_eq_true, if_false]
        exact hfail 3
      simp [hstart]
    · simp

theorem c3_witness :
    (StreamConverter.init "rtmp://a" 8554 "s" "localhost").start
      (fun _ => SpawnOutcome.transientOS) 2 = (false, 2) :=
  (c3_retry_exhaustion 2 (by decide) (fun _ => SpawnOutcome.transientOS)
    (fun _ => rfl)).1
    (StreamConverter.init "rtmp://a" 8554 "s" "localhost") rfl

/-- C4: if the first `j` spawn attempts fail with retriable errors and
attempt `j` fails fatally (missing executable or permission denied),
`start` returns failure after `j + 1` attempts — immediately, with no
further retries — even though `j + 1` may be well below `max_retries`. -/
theorem c4_fatal_aborts (s : StreamConverter) (hs : s.processLive = false)
    (spawn : Nat → SpawnOutcome) (max_retries j : Nat) (hj : j < max_retries)
    (hpre : ∀ k, k < j → (spawn k).isRetriableFailure = true)
    (hfat : (spawn j).isFatal = true) :
    s.start spawn max_retries = (false, j + 1) := by
  unfold StreamConverter.start
  simp only [hs, Bool.false_eq_true, if_false]
  have h := startAttempts_fatal spawn j max_retries 0 hj
    (fun k hk => by simpa using hpre k hk) (by simpa using hfat)
  simpa using h

def spawnC4 : Nat → SpawnOutcome :=
  fun k => if k == 0 then SpawnOutcome.transientOS else SpawnOutcome.fatalNotFound

theorem c4_witness :
    (StreamConverter.init "rtmp://b" 8554 "t" "localhost").start spawnC4 5
      = (false, 2) :=
  c4_fatal_aborts (StreamConverter.init "rtmp://b" 8554 "t" "localhost") rfl
    spawnC4 5 1 (by decide)
    (fun k hk => by
      have hk0 : k = 0 := by omega
      subst hk0
      decide)
    (by decide)

theorem get_health_status_recompute (s : StreamConverter) (current_time : ℚ)
    (hcache : s.cached_health_status = none ∨
      5 ≤ current_time - s.last_health_check_time) :
    s.get_health_status current_time =
      (amendedC6Verdict s current_time,
        { s with
          cached_health_status := some (amendedC6Verdict s current_time)
          last_health_check_time := current_time }) := by
  have hcond : ¬ (current_time - s.last_health_check_time < 5 ∧
      s.cached_health_status.isSome = true) := by
    rcases hcache with h | h
    · intro hc
      rw [h] at hc
      simp at hc
    · intro hc
      exact absurd hc.1 (not_lt.mpr h)
  unfold StreamConverter.get_health_status amendedC6Verdict
  rw [if_neg hcond]

def convC6 : StreamConverter :=
  { StreamConverter.init "rtmp://x" 8554 "s6" "localhost" with
    process := some ⟨none⟩ }

/-- C6 counterexample: a supervisor with a live process, no recorded
error, no cached verdict, and `last_output_time` still at its initial
zero, queried at time 100: the claim's priority order (staleness test
with no observed-output guard) yields unhealthy with the no-output
reason, but `get_health_status` returns healthy. -/
theorem c6_counterexample :
    convC6.cached_health_status = none ∧
    (convC6.get_health_status 100).1 = ⟨true, "Stream is running normally"⟩ ∧
    claimC6Verdict convC6 100 =
      ⟨false, "No output from FFmpeg for more than 30 seconds"⟩ := by
  have hlive : convC6.processLive = true := rfl
  have herr : convC6.last_error = "" := rfl
  have hout : convC6.last_output_time = 0 := rfl
  refine ⟨rfl, ?_, ?_⟩
  · rw [get_health_status_recompute convC6 100 (Or.inl rfl)]
    simp [amendedC6Verdict, hlive, herr, hout]
  · unfold claimC6Verdict
    rw [hlive, herr, hout]
    norm_num

/-- C6 (amended): whenever the cached verdict is absent or at least the
5-second cache window old, `get_health_status` recomputes the verdict in
priority order — no live handle, then recorded error, then output
staleness beyond 30 seconds *provided some output has been observed*
(`last_output_time > 0`), else healthy — and returns it, caching it and
stamping the check time. -/
theorem c6_health_priority (s : StreamConverter) (current_time : ℚ)
    (hcache : s.cached_health_status = none ∨
      5 ≤ current_time - s.last_health_check_time) :
    (s.get_health_status current_time).1 = amendedC6Verdict s current_time ∧
    (s.get_health_status current_time).2.cached_health_status =
      some (amendedC6Verdict s current_time) ∧
    (s.get_health_status current_time).2.last_health_check_time =
      current_time := by
  rw [get_health_status_recompute s current_time hcache]
  exact ⟨rfl, rfl, rfl⟩

theorem c6_witness :
    (convC6.get_health_status 100).1 = amendedC6Verdict convC6 100 :=
  (c6_health_priority convC6 100 (Or.inl rfl)).1

def convC10 : StreamConverter :=
  { StreamConverter.init "rtmp://y" 8554 "s10" "localhost" with
    process := some ⟨none⟩ }

/-- C10: with a live process handle, no recorded error, and
`last_output_time` still at its initial zero (no output line ever
observed), `get_health_status` returns healthy at every query time —
the staleness test is skipped until some output has been seen —
whenever the cached verdict is absent or stale. -/
theorem c10_no_output_observed_healthy (s : StreamConverter)
    (current_time : ℚ) (hlive : s.processLive = true)
    (herr : s.last_error = "") (hout : s.last_output_time = 0)
    (hcache : s.cached_health_status = none ∨
      5 ≤ current_time - s.last_health_check_time) :
    (s.get_health_status current_time).1 =
      ⟨true, "Stream is running normally"⟩ := by
  rw [(get_health_status_recompute s current_time hcache)]
  simp [amendedC6Verdict, hlive, herr, hout]

theorem c10_witness :
    (convC10.get_health_status 1000).1 =
      ⟨true, "Stream is running normally"⟩ :=
  c10_no_output_observed_healthy convC10 1000 rfl rfl rfl (Or.inl rfl)

def convC2 : StreamConverter :=
  StreamConverter.init "rtmp://z" 8554 "s2" "localhost"

/-- C2 counterexample: the collector reads a line containing the keyword
"error" on stdout (stderr yields no line).  The claim requires the line
to become the recorded error, but the code scans only stderr lines for
keywords: `last_error` stays empty.  The line does refresh
`last_output_time`. -/
theorem c2_counterexample :
    strContains (strLower (strTrim "error: connection failed")) "error"
      = true ∧
    (convC2.log_ffmpeg_output_step "error: connection failed" "" 5 6).last_error
      = "" ∧
    (convC2.log_ffmpeg_output_step "error: connection failed" "" 5 6).last_output_time
      = 5 := by
  have hne : ("error: connection failed" : String) ≠ "" := by decide
  refine ⟨by decide, ?_, ?_⟩ <;>
    simp [StreamConverter.log_ffmpeg_output_step, hne, convC2, StreamConverter.init]

/-- C2 (amended): in one collector step, a non-empty line on either
channel refreshes `last_output_time` (the stderr read happens second, so
its timestamp wins when both channels have a line); only a non-empty
stderr line whose stripped, lowercased text contains "error" or "fatal"
becomes the recorded error, the most recent such line overwriting any
previous value; stdout lines and non-matching stderr lines leave
`last_error` unchanged. -/
theorem c2_collector_step (s : StreamConverter)
    (stdoutLine stderrLine : String) (tOut tErr : ℚ) :
    (stderrLine = "" →
      (s.log_ffmpeg_output_step stdoutLine stderrLine tOut tErr).last_error
        = s.last_error) ∧
    (stderrLine ≠ "" →
      ((strContains (strLower (strTrim stderrLine)) "error" = true ∨
          strContains (strLower (strTrim stderrLine)) "fatal" = true) →
        (s.log_ffmpeg_output_step stdoutLine stderrLine tOut tErr).last_error
          = strTrim stderrLine) ∧
      (strContains (strLower (strTrim stderrLine)) "error" = false →
        strContains (strLower (strTrim stderrLine)) "fatal" = false →
        (s.log_ffmpeg_output_step stdoutLine stderrLine tOut tErr).last_error
          = s.last_error) ∧
      (s.log_ffmpeg_output_step stdoutLine stderrLine tOut tErr).last_output_time
        = tErr) ∧
    (stderrLine = "" → stdoutLine ≠ "" →
      (s.log_ffmpeg_output_step stdoutLine stderrLine tOut tErr).last_output_time
        = tOut) ∧
    (stderrLine = "" → stdoutLine = "" →
      s.log_ffmpeg_output_step stdoutLine stderrLine tOut tErr = s) := by
  refine ⟨?_, ?_, ?_, ?_⟩
  · intro he
    unfold StreamConverter.log_ffmpeg_output_step
    by_cases ho : stdoutLine = "" <;> simp [he, ho]
  · intro he
    refine ⟨?_, ?_, ?_⟩
    · intro hor
      have hk : (strContains (strLower (strTrim stderrLine)) "error" ||
          strContains (strLower (strTrim stderrLine)) "fatal") = true := by
        rcases hor with h | h <;> simp [h]
      unfold StreamConverter.log_ffmpeg_output_step
      by_cases ho : stdoutLine = "" <;> simp [he, ho, hk]
    · intro hk1 hk2
      have hk : (strContains (strLower (strTrim stderrLine)) "error" ||
          strContains (strLower (strTrim stderrLine)) "fatal") = false := by
        simp [hk1, hk2]
      unfold StreamConverter.log_ffmpeg_output_step
      by_cases ho : stdoutLine = "" <;> simp [he, ho, hk]
    · unfold StreamConverter.log_ffmpeg_output_step
      by_cases ho : stdoutLine = "" <;>
        by_cases hk : (strContains (strLower (strTrim stderrLine)) "error" ||
          strContains (strLower (strTrim stderrLine)) "fatal") = true <;>
        simp [he, ho, hk]
  · intro he ho
    unfold StreamConverter.log_ffmpeg_output_step
    simp [he, ho]
  · intro he ho
    unfold StreamConverter.log_ffmpeg_output_step
    simp [he, ho]

theorem c2_witness :
    (convC2.log_ffmpeg_output_step "" "fatal: demux" 1 2).last_error
      = strTrim "fatal: demux" ∧
    (convC2.log_ffmpeg_output_step "" "fatal: demux" 1 2).last_output_time
      = 2 := by
  have h := (c2_collector_step convC2 "" "fatal: demux" 1 2).2.1 (by decide)
  exact ⟨h.1 (Or.inr (by decide)), h.2.2⟩

def convC1 : StreamConverter :=
  { StreamConverter.init "rtmp://c1" 8554 "cam1" "localhost" with
    log_buffer := "buffered logs\n" }

def mgrC1 : StreamManager := ⟨[("cam1", convC1)]⟩

def fsC1 : String → Except String String :=
  fun _ => Except.ok "durable file logs\n"

/-- C1 counterexample: stream "cam1" is registered, its durable log file
is readable (the filesystem oracle answers every path), and its in-memory
buffer is non-empty.  The claim requires the file's contents to be
returned; `get_stream_logs` returns the buffer instead. -/
theorem c1_counterexample :
    mgrC1.get_stream_logs fsC1 "cam1" = some "buffered logs\n" ∧
    fsC1 convC1.log_file_path = Except.ok "durable file logs\n" ∧
    ("buffered logs\n" : String) ≠ "durable file logs\n" := by
  refine ⟨rfl, rfl, by decide⟩

/-- C1 (amended): for every name present in the registry,
`get_stream_logs` returns the in-memory buffer whenever it is non-empty;
the durable log file is consulted only when the buffer is empty, its
contents being returned when it is readable and an
`"Error reading logs: ..."` string when reading fails. -/
theorem c1_logs_buffer_first (m : StreamManager)
    (fs : String → Except String String) (stream_name : String)
    (c : StreamConverter) (h : m.streams.lookup stream_name = some c) :
    (c.log_buffer ≠ "" →
      m.get_stream_logs fs stream_name = some c.log_buffer) ∧
    (c.log_buffer = "" →
      m.get_stream_logs fs stream_name =
        some (match fs c.log_file_path with
          | Except.ok contents => contents
          | Except.error e => "Error reading logs: " ++ e)) := by
  unfold StreamManager.get_stream_logs
  rw [h]
  constructor
  · intro hb
    simp [hb]
  · intro hb
    simp only [hb, if_pos rfl]
    cases hfs : fs c.log_file_path <;> simp

theorem c1_witness :
    mgrC1.get_stream_logs fsC1 "cam1" = some convC1.log_buffer :=
  (c1_logs_buffer_first mgrC1 fsC1 "cam1" convC1 rfl).1 (by decide)

def dbC5 : StreamDB := ⟨[("s5", "rtmp://old", 1)]⟩

def mgrC5 : StreamManager := ⟨[]⟩

/-- C5 counterexample: the registry is empty but the store already holds
a record named "s5" (reachable, e.g., when a persisted stream failed to
start during reconciliation).  `add_stream` for a fresh spec with that
name and an always-successful spawn returns success and inserts into the
map — but the new StreamSpec is *not* persisted: `save_stream` fails on
the unique-name constraint and `add_stream` ignores its result, leaving
only the old record in the store. -/
theorem c5_counterexample :
    (mgrC5.add_stream dbC5 (fun _ => SpawnOutcome.alive)
      "rtmp://new" 2 "s5" "localhost").1 = true ∧
    (mgrC5.add_stream dbC5 (fun _ => SpawnOutcome.alive)
      "rtmp://new" 2 "s5" "localhost").2.2.records
      = [("s5", "rtmp://old", 1)] := by
  exact ⟨rfl, rfl⟩

/-- C5 (amended): `add_stream` with a name already in the map fails and
leaves map and store untouched; with a free name and a failing `start` it
fails and leaves map and store untouched; with a free name and a
succeeding `start` it returns success and appends the converter to the
map, and persists the StreamSpec when the store holds no record with
that name — a pre-existing record of that name makes the (ignored)
`save_stream` call fail, leaving the store unchanged. -/
theorem c5_add_stream (m : StreamManager) (db : StreamDB)
    (spawn : Nat → SpawnOutcome) (rtmp_url : String) (rtsp_port : Nat)
    (stream_name host : String) :
    ((m.streams.lookup stream_name).isSome = true →
      m.add_stream db spawn rtmp_url rtsp_port stream_name host
        = (false, m, db)) ∧
    (m.streams.lookup stream_name = none →
      (((StreamConverter.init rtmp_url rtsp_port stream_name host).start
          spawn 3).1 = false →
        m.add_stream db spawn rtmp_url rtsp_port stream_name host
          = (false, m, db)) ∧
      (((StreamConverter.init rtmp_url rtsp_port stream_name host).start
          spawn 3).1 = true →
        (m.add_stream db spawn rtmp_url rtsp_port stream_name host).1
          = true ∧
        (m.add_stream db spawn rtmp_url rtsp_port stream_name
            host).2.1.streams
          = m.streams ++
            [(stream_name,
              StreamConverter.init rtmp_url rtsp_port stream_name host)] ∧
        (db.records.any (fun r => r.1 == stream_name) = false →
          (m.add_stream db spawn rtmp_url rtsp_port stream_name
              host).2.2.records
            = db.records ++ [(stream_name, rtmp_url, rtsp_port)]) ∧
        (db.records.any (fun r => r.1 == stream_name) = true →
          (m.add_stream db spawn rtmp_url rtsp_port stream_name
              host).2.2 = db))) := by
  constructor
  · intro h
    unfold StreamManager.add_stream
    simp [h]
  · intro h
    have hns : (m.streams.lookup stream_name).isSome = false := by
      simp [h]
    constructor
    · intro hf
      unfold StreamManager.add_stream
      simp [hns, hf]
    · intro ht
      refine ⟨?_, ?_, ?_, ?_⟩
      · unfold StreamManager.add_stream
        simp [hns, ht]
      · unfold StreamManager.add_stream
        simp [hns, ht]
      · intro hdb
        unfold StreamManager.add_stream
        simp [hns, ht, save_stream, hdb]
      · intro hdb
        unfold StreamManager.add_stream
        simp [hns, ht, save_stream, hdb]

theorem c5_witness :
    (StreamManager.add_stream ⟨[]⟩ ⟨[]⟩ (fun _ => SpawnOutcome.alive)
      "rtmp://w" 9000 "w1" "localhost").2.2.records
      = [("w1", "rtmp://w", 9000)] := by
  have h := ((c5_add_stream ⟨[]⟩ ⟨[]⟩ (fun _ => SpawnOutcome.alive)
    "rtmp://w" 9000 "w1" "localhost").2 rfl).2 rfl
  simpa using h.2.2.1 rfl
